import Mathlib

/-!
Shallow embedding of the Build-a-Platform Flask service (src/app.py,
src/models.py, src/blueprints/ai_routes.py).

Conventions of the embedding:
* Python `datetime` objects are the structure `DT` below.  The only timezone
  the program ever constructs is `timezone.utc` (models.py defaults,
  app.py cutoff computation), so tz-awareness is modelled as `tz : Option Int`
  holding the offset in minutes; `some 0` is `timezone.utc`, `none` is naive.
* Float columns and float query parameters are modelled as `Rat`; the claims
  about them are order/presence claims where binary rounding is immaterial.
* The SQLAlchemy stores are Lean lists; `query.filter` is `List.filter`,
  `order_by(... .desc())` is a sort by the timestamp key, `delete` is a
  filter keeping the complement, `add`/`commit` is an append.
* Fallible steps return `Option`/`Except`; a Flask `Response`/`abort` is an
  explicit error constructor.
-/

/-- Numeric value of an ASCII digit character. -/
def digitVal (c : Char) : Nat := c.toNat - 48

/-- Python `datetime`: civil fields plus microseconds and an optional UTC
offset in minutes (`some 0` = `timezone.utc`, `none` = naive). -/
structure DT where
  year : Nat
  month : Nat
  day : Nat
  hour : Nat
  minute : Nat
  second : Nat
  usec : Nat
  tz : Option Int
  deriving DecidableEq, Repr

/-- Days since 1970-01-01 of a civil date (the Howard Hinnant algorithm,
as used by every civil-calendar implementation; used here only as the
comparison key for `datetime` ordering and for the weekday of `httpDate`). -/
def daysFromCivil (y : Int) (m d : Nat) : Int :=
  let y2 : Int := if m ≤ 2 then y - 1 else y
  let era : Int := (if 0 ≤ y2 then y2 else y2 - 399) / 400
  let yoe : Int := y2 - era * 400
  let mp : Int := ((m : Int) + 9) % 12
  let doy : Int := (153 * mp + 2) / 5 + (d : Int) - 1
  let doe : Int := yoe * 365 + yoe / 4 - yoe / 100 + doy
  era * 146097 + doe - 719468

/-- Absolute-time comparison key of a `datetime` in microseconds since the
epoch (offset-aware values are shifted by their offset, as Python and the
database do when comparing). -/
def DT.key (t : DT) : Int :=
  daysFromCivil (t.year : Int) t.month t.day * 86400000000
    + ((t.hour * 3600 + t.minute * 60 + t.second : Nat) : Int) * 1000000
    + (t.usec : Int)
    - (t.tz.getD 0) * 60000000

/-- The datetime truncated to whole seconds, as a UTC-aware value: what
`YYYY-MM-DDTHH:MM:SSZ` parses back to. -/
def truncSec (t : DT) : DT :=
  { t with usec := 0, tz := some 0 }

/-- Leap-year test of the proleptic Gregorian calendar. -/
def isLeap (y : Nat) : Bool :=
  y % 4 = 0 && (y % 100 ≠ 0 || y % 400 = 0)

/-- Number of days of a month (used by `datetime.fromisoformat` validation). -/
def daysInMonth (y m : Nat) : Nat :=
  if m = 2 then (if isLeap y then 29 else 28)
  else if m = 4 ∨ m = 6 ∨ m = 9 ∨ m = 11 then 30
  else 31

/-- Field ranges of the Python `datetime` values this service stores and
serializes (years are kept ≥ 1000 because `strftime` zero-padding of `%Y`
below four digits is platform-dependent; every timestamp the service
creates is a current date). -/
def validDT (t : DT) : Prop :=
  1000 ≤ t.year ∧ t.year ≤ 9999 ∧ 1 ≤ t.month ∧ t.month ≤ 12 ∧
  1 ≤ t.day ∧ t.day ≤ daysInMonth t.year t.month ∧
  t.hour ≤ 23 ∧ t.minute ≤ 59 ∧ t.second ≤ 59 ∧ t.usec ≤ 999999

instance (t : DT) : Decidable (validDT t) := by
  unfold validDT; infer_instance

/-- Two-digit zero-padded field, as produced by `strftime` `%m`/`%d`/`%H`/
`%M`/`%S`. -/
def pad2L (n : Nat) : List Char :=
  [Nat.digitChar (n / 10), Nat.digitChar (n % 10)]

/-- Four-digit zero-padded field, as produced by `strftime` `%Y` for the
four-digit years of `validDT`. -/
def pad4L (n : Nat) : List Char :=
  [Nat.digitChar (n / 1000), Nat.digitChar (n / 100 % 10),
   Nat.digitChar (n / 10 % 10), Nat.digitChar (n % 10)]

/-- Format `dt.strftime(%Y-%m-%dT%H:%M:%SZ)` — models.py `to_dict` (both models). -/
def formatIsoZ (t : DT) : String :=
  String.mk (pad4L t.year ++ '-' :: (pad2L t.month ++ '-' :: (pad2L t.day ++
    'T' :: (pad2L t.hour ++ ':' :: (pad2L t.minute ++ ':' :: (pad2L t.second ++ ['Z']))))))

/-- Rewrite `s.replace(Z, +00:00)` from app.py `filter_messages` (the pattern is the
single character `Z`, every occurrence is replaced). -/
def replaceZL : List Char → List Char
  | [] => []
  | c :: cs =>
      if c = 'Z' then '+' :: '0' :: '0' :: ':' :: '0' :: '0' :: replaceZL cs
      else c :: replaceZL cs

/-- String-level wrapper of `replaceZL`. -/
def replaceZ (s : String) : String := String.mk (replaceZL s.data)

/-- Two ASCII digits read as a number. -/
def num2 (a b : Char) : Option Nat :=
  if a.isDigit = true ∧ b.isDigit = true then
    some (10 * digitVal a + digitVal b)
  else none

/-- Four ASCII digits read as a number. -/
def num4 (a b c d : Char) : Option Nat :=
  if a.isDigit = true ∧ b.isDigit = true ∧ c.isDigit = true ∧ d.isDigit = true then
    some (1000 * digitVal a + 100 * digitVal b + 10 * digitVal c + digitVal d)
  else none

/-- Field validation performed by `datetime.fromisoformat` (a parsed value
outside these ranges raises `ValueError`). -/
def mkDT (y mo d h mi s : Nat) (tz : Option Int) : Option DT :=
  if 1 ≤ y ∧ y ≤ 9999 ∧ 1 ≤ mo ∧ mo ≤ 12 ∧ 1 ≤ d ∧ d ≤ daysInMonth y mo ∧
     h ≤ 23 ∧ mi ≤ 59 ∧ s ≤ 59 then
    some { year := y, month := mo, day := d, hour := h, minute := mi,
           second := s, usec := 0, tz := tz }
  else none

/-- Reads the `YYYY-MM-DD` head of an ISO string. -/
def readDate (l : List Char) : Option (Nat × Nat × Nat × List Char) :=
  match l with
  | y1 :: y2 :: y3 :: y4 :: c1 :: m1 :: m2 :: c2 :: d1 :: d2 :: rest =>
      if c1 = '-' ∧ c2 = '-' then
        match num4 y1 y2 y3 y4, num2 m1 m2, num2 d1 d2 with
        | some y, some mo, some d => some (y, mo, d, rest)
        | _, _, _ => none
      else none
  | _ => none

/-- Reads `HH:MM` or `HH:MM:SS` after the date separator. -/
def readTime (l : List Char) : Option (Nat × Nat × Nat × List Char) :=
  match l with
  | h1 :: h2 :: c1 :: n1 :: n2 :: rest =>
      if c1 = ':' then
        match num2 h1 h2, num2 n1 n2 with
        | some h, some n =>
            match rest with
            | c2 :: s1 :: s2 :: rest2 =>
                if c2 = ':' then
                  match num2 s1 s2 with
                  | some s => some (h, n, s, rest2)
                  | none => none
                else some (h, n, 0, rest)
            | _ => some (h, n, 0, rest)
        | _, _ => none
      else none
  | _ => none

/-- Reads an optional trailing `+HH:MM` / `-HH:MM` offset. -/
def readOffset (l : List Char) : Option (Option Int) :=
  match l with
  | [] => some none
  | sgn :: h1 :: h2 :: c :: m1 :: m2 :: [] =>
      if c = ':' ∧ (sgn = '+' ∨ sgn = '-') then
        match num2 h1 h2, num2 m1 m2 with
        | some oh, some om =>
            if oh ≤ 23 ∧ om ≤ 59 then
              some (some ((if sgn = '+' then (1 : Int) else -1) * (oh * 60 + om)))
            else none
        | _, _ => none
      else none
  | _ => none

/-- Model of `datetime.fromisoformat`, on the second-precision ISO-8601 shapes this
date filters of this API use: `YYYY-MM-DD`, optionally `T`/space plus
`HH:MM[:SS]`, optionally a `±HH:MM` offset.  (Fractional seconds and the
reduced/expanded forms Python 3.11 additionally accepts are outside the
model; no claim depends on them.) -/
def parseIsoDT (s : String) : Option DT :=
  match readDate s.data with
  | none => none
  | some (y, mo, d, rest) =>
      match rest with
      | [] => mkDT y mo d 0 0 0 none
      | sep :: rest2 =>
          if sep = 'T' ∨ sep = ' ' then
            match readTime rest2 with
            | none => none
            | some (h, mi, sec, rest3) =>
                match readOffset rest3 with
                | none => none
                | some tz => mkDT y mo d h mi sec tz
          else none

/-- All-digit character list read as a number (empty list fails). -/
def readDigitsAux : List Char → Nat → Option Nat
  | [], acc => some acc
  | c :: cs, acc =>
      if c.isDigit = true then readDigitsAux cs (10 * acc + digitVal c) else none

/-- All-digit character list read as a number (empty list fails). -/
def readDigits (l : List Char) : Option Nat :=
  match l with
  | [] => none
  | _ => readDigitsAux l 0

/-- Splits at the first character satisfying `p`; returns the part before it
and, when found, the part after it. -/
def splitAt1 (p : Char → Bool) : List Char → List Char × Option (List Char)
  | [] => ([], none)
  | c :: cs =>
      if p c then ([], some cs)
      else
        let r := splitAt1 p cs
        (c :: r.1, r.2)

/-- Unsigned decimal literal: digits, optionally with a fractional part
(`12`, `12.`, `.5`, `12.5`). -/
def parseUnsignedDec (l : List Char) : Option Rat :=
  match splitAt1 (fun c => c = '.') l with
  | (ip, none) => (readDigits ip).map (fun n => (n : Rat))
  | ([], some []) => none
  | ([], some fp) => (readDigits fp).map (fun f => (f : Rat) / (10 : Rat) ^ fp.length)
  | (ip, some []) => (readDigits ip).map (fun n => (n : Rat))
  | (ip, some fp) => do
      let n ← readDigits ip
      let f ← readDigits fp
      pure ((n : Rat) + (f : Rat) / (10 : Rat) ^ fp.length)

/-- Signed integer (exponent of a scientific literal). -/
def parseSignedInt : List Char → Option Int
  | '+' :: rest => (readDigits rest).map (fun n => (n : Int))
  | '-' :: rest => (readDigits rest).map (fun n => -(n : Int))
  | l => (readDigits l).map (fun n => (n : Int))

/-- Scales a rational by a power of ten. -/
def applyExp (x : Rat) (e : Int) : Rat :=
  if 0 ≤ e then x * (10 : Rat) ^ e.toNat else x / (10 : Rat) ^ (-e).toNat

/-- Python `float()` on the standard decimal and scientific literals
(optional sign, digits with optional fraction, optional `e`/`E` exponent).
The special spellings `inf`/`nan`, digit-group underscores and surrounding
whitespace are outside the model; no claim depends on them. -/
def parseFloat (s : String) : Option Rat :=
  let body := fun (l : List Char) =>
    match splitAt1 (fun c => c = 'e' ∨ c = 'E') l with
    | (m, none) => parseUnsignedDec m
    | (m, some ex) => do
        let mv ← parseUnsignedDec m
        let ev ← parseSignedInt ex
        pure (applyExp mv ev)
  match s.data with
  | '+' :: rest => body rest
  | '-' :: rest => (body rest).map (fun x => -x)
  | l => body l

/-- Python `str.strip()` with no argument: leading whitespace removed. -/
def lstripL (l : List Char) : List Char := l.dropWhile Char.isWhitespace

/-- Python `str.strip()` with no argument: trailing whitespace removed. -/
def rstripL (l : List Char) : List Char :=
  (l.reverse.dropWhile Char.isWhitespace).reverse

/-- Python `str.strip()` body on character lists. -/
def stripL (l : List Char) : List Char := rstripL (lstripL l)

/-- Python `str.strip()` (whitespace per `Char.isWhitespace`; the exotic
Unicode space characters Python additionally strips never occur here). -/
def pyStrip (s : String) : String := String.mk (stripL s.data)

/-- ORM model `Message` (models.py): id, non-null text, coordinates,
timezone-aware `posted_at`. -/
structure MessageRow where
  id : Nat
  message : String
  lat : Rat
  lng : Rat
  posted_at : DT
  deriving DecidableEq, Repr

/-- Serialized form returned by `Message.to_dict`. -/
structure MessageDict where
  id : Nat
  message : String
  lat : Rat
  lng : Rat
  posted_at : String
  deriving DecidableEq, Repr

/-- Serialization `Message.to_dict` (models.py).  The source first normalizes `posted_at`
to UTC (`replace(tzinfo=utc)` when naive, `astimezone(utc)` when aware);
the only timezone the program constructs is `timezone.utc`, under which both
normalizations leave the civil fields unchanged, so the model formats the
fields directly. -/
def MessageRow.to_dict (m : MessageRow) : MessageDict :=
  { id := m.id, message := m.message, lat := m.lat, lng := m.lng,
    posted_at := formatIsoZ m.posted_at }

/-- ORM model `Summary` (models.py).  The `summary` column is declared
`db.Text, nullable=False`; the field is `Option String` because the
ai route constructs the object with `summary=None`. -/
structure SummaryRow where
  id : Nat
  summary : Option String
  location : String
  lat : Rat
  lng : Rat
  posted_at : DT
  deriving DecidableEq, Repr

/-- Serialized form returned by `Summary.to_dict`. -/
structure SummaryDict where
  id : Nat
  summary : Option String
  lat : Rat
  lng : Rat
  location : String
  posted_at : String
  deriving DecidableEq, Repr

/-- Serialization `Summary.to_dict` (models.py); same UTC normalization note as
`MessageRow.to_dict`. -/
def SummaryRow.to_dict (s : SummaryRow) : SummaryDict :=
  { id := s.id, summary := s.summary, lat := s.lat, lng := s.lng,
    location := s.location, posted_at := formatIsoZ s.posted_at }

/-- Query parameters of `GET /api/messages` (absent parameter = `none`;
`endArg` is the parameter `end` of the source, renamed because `end` is reserved). -/
structure MsgArgs where
  start : Option String
  endArg : Option String
  lat_min : Option String
  lat_max : Option String
  lng_min : Option String
  lng_max : Option String
  deriving DecidableEq, Repr

/-- Python truthiness of an optional string (`if start:` skips both a missing
and an empty parameter). -/
def truthy (o : Option String) : Option String :=
  match o with
  | some s => if s = "" then none else some s
  | none => none

/-- Conversion `request.args.get(name, type=float)`: Flask applies `float` to the raw
value and silently falls back to the default `None` when the conversion
raises. -/
def floatArg (o : Option String) : Option Rat := o.bind parseFloat

/-- Purge `remove_old_messages` (app.py): deletes every row with
`posted_at < now - timedelta(minutes=ttl)`. -/
def remove_old_messages (now : DT) (ttlMinutes : Int) (store : List MessageRow) :
    List MessageRow :=
  let cutoff : Int := now.key - ttlMinutes * 60000000
  store.filter (fun m => decide (¬ m.posted_at.key < cutoff))

/-- One optional bound of the query: no test when absent. -/
def optTest {α : Type} (o : Option α) (f : α → Bool) : Bool :=
  match o with
  | some x => f x
  | none => true

/-- The conjunction of the filters `filter_messages` chains onto the query. -/
def keepFilter (sdt edt : Option DT) (lm lM gm gM : Option Rat)
    (m : MessageRow) : Bool :=
  optTest sdt (fun t => decide (t.key ≤ m.posted_at.key)) &&
  optTest edt (fun t => decide (m.posted_at.key ≤ t.key)) &&
  optTest lm (fun x => decide (x ≤ m.lat)) &&
  optTest lM (fun x => decide (m.lat ≤ x)) &&
  optTest gm (fun x => decide (x ≤ m.lng)) &&
  optTest gM (fun x => decide (m.lng ≤ x))

/-- Descending `posted_at` order used by `order_by(Message.posted_at.desc())`. -/
def postedDesc (a b : MessageRow) : Prop :=
  b.posted_at.key ≤ a.posted_at.key

instance : DecidableRel postedDesc := fun a b =>
  inferInstanceAs (Decidable (b.posted_at.key ≤ a.posted_at.key))

instance : IsTotal MessageRow postedDesc :=
  ⟨fun a b => le_total b.posted_at.key a.posted_at.key⟩

instance : IsTrans MessageRow postedDesc :=
  ⟨fun _ _ _ h1 h2 => le_trans h2 h1⟩

/-- The filtered query evaluated and ordered descending by `posted_at`. -/
def applyFilters (store : List MessageRow) (sdt edt : Option DT)
    (lm lM gm gM : Option Rat) : List MessageRow :=
  List.insertionSort postedDesc (store.filter (keepFilter sdt edt lm lM gm gM))

/-- The `end` branch of `filter_messages` (app.py).  The source constructs
`Response(Invalid end date format, 400)` on a parse failure but does not
`return` it, so a malformed `end` silently contributes no filter. -/
def parseEndLenient (o : Option String) : Option DT :=
  match truthy o with
  | none => none
  | some s => parseIsoDT (replaceZ s)

/-- Outcome of `GET /api/messages`: the plain-text 400 `Response` or the
JSON-serialized list. -/
inductive GetResult where
  | badRequest (body : String)
  | ok (rows : List MessageRow)
  deriving DecidableEq, Repr

/-- Listing `filter_messages` (app.py): optional `start`/`end` ISO filters (with the
`Z` → `+00:00` rewrite), optional float coordinate bounds, result ordered by
`posted_at` descending.  Only the `start` branch returns its 400 response. -/
def filter_messages (store : List MessageRow) (args : MsgArgs) : GetResult :=
  let lm := floatArg args.lat_min
  let lM := floatArg args.lat_max
  let gm := floatArg args.lng_min
  let gM := floatArg args.lng_max
  let edt := parseEndLenient args.endArg
  match truthy args.start with
  | none => .ok (applyFilters store none edt lm lM gm gM)
  | some s =>
      match parseIsoDT (replaceZ s) with
      | none => .badRequest ("Invalid start date format")
      | some sdt => .ok (applyFilters store (some sdt) edt lm lM gm gM)

/-- Route `GET /api/messages` (app.py `messages`): purge, then filter; returns the
purged store and the response. -/
def messagesGET (now : DT) (ttlMinutes : Int) (args : MsgArgs)
    (store : List MessageRow) : List MessageRow × GetResult :=
  let store1 := remove_old_messages now ttlMinutes store
  (store1, filter_messages store1 args)

/-- JSON payload of `POST /api/messages` (`data.get(...)`): `message` when
present is a string; `lat`/`lng` when present carry the numeric value
`float(...)` coerces them to. -/
structure PostData where
  message : Option String
  lat : Option Rat
  lng : Option Rat
  deriving DecidableEq, Repr

/-- Outcome of `POST /api/messages`. -/
inductive PostResult where
  | badRequest (body : String)
  | created (m : MessageRow)
  deriving DecidableEq, Repr

/-- Creation `create_message` (app.py): strips the message, rejects an empty message
or a missing coordinate with the 400 response, otherwise appends the new row
(`newId`, `now` stand for the server-assigned id and `datetime.now(utc)`). -/
def create_message (data : PostData) (newId : Nat) (now : DT)
    (store : List MessageRow) : List MessageRow × PostResult :=
  let msg := pyStrip (data.message.getD (""))
  match data.lat, data.lng with
  | some la, some ln =>
      if msg = "" then (store, .badRequest ("Lat and long inputs are required"))
      else
        let row : MessageRow :=
          { id := newId, message := msg, lat := la, lng := ln, posted_at := now }
        (store ++ [row], .created row)
  | _, _ => (store, .badRequest ("Lat and long inputs are required"))

/-- Record `features[0].properties` of the Geoapify response, restricted to the two
keys `location_summary` reads. -/
structure GeoProps where
  state : Option String
  country : Option String
  deriving DecidableEq, Repr

/-- The `place_parts` loop of `location_summary` (ai_routes.py): for `state`
then `country`, append the value when it is truthy (present and non-empty)
and not already collected. -/
def placeParts (props : GeoProps) : List String :=
  let step : List String → Option String → List String := fun parts v =>
    match v with
    | some s => if s ≠ "" ∧ s ∉ parts then parts ++ [s] else parts
    | none => parts
  step (step [] props.state) props.country

/-- Python `, .join(parts)`. -/
def joinComma : List String → String
  | [] => ""
  | [x] => x
  | x :: xs => x ++ ", " ++ joinComma xs

/-- The `description` string built by `location_summary`. -/
def descriptionOf (props : GeoProps) : String := joinComma (placeParts props)

/-- The f-string prompt of `location_summary` followed by `.strip()`:
`Give me an description of the area {description} within {RESPONSE_LENGTH}
words, without stopping in the middle of a sentence` (note the source's
`an description`).  `n` is the rendering of `RESPONSE_LENGTH`. -/
def buildPrompt (description n : String) : String :=
  pyStrip (("Give me an description of the area ") ++ description ++
    (" within ") ++ n ++
    (" words, without stopping in the middle of a sentence"))

/-- The prompt as the specification words it: `Give me a description of the
area {D} within {N} words, without stopping in the middle of a sentence`.
Spec-side reference definition, to be compared with `buildPrompt`. -/
def specPromptClaim (description n : String) : String :=
  ("Give me a description of the area ") ++ description ++
    (" within ") ++ n ++
    (" words, without stopping in the middle of a sentence")

/-- Spec-side reference definition of the place description (section 4.2 of
the spec): keep present values, state before country, drop the duplicate
when both are equal, join with a comma-space. -/
def specDescription (state country : Option String) : String :=
  match state, country with
  | some s, some c => if s = c then s else s ++ ", " ++ c
  | some s, none => s
  | none, some c => c
  | none, none => ""

/-- Commit `db.session.add(Summary(...)); db.session.commit()`: models.py declares
`summary = db.Column(db.Text, nullable=False)`, so committing a row whose
`summary` is `None` violates the NOT NULL constraint and raises; any other
row is appended. -/
def insertSummary (row : SummaryRow) (store : List SummaryRow) :
    Except String (List SummaryRow) :=
  if row.summary = none then .error ("NOT NULL constraint failed: summary.summary")
  else .ok (store ++ [row])

/-- The JSON success body built at the end of `location_summary`:
`lat`/`lng` are echoed as the raw query strings and `posted_at` is the raw
`datetime` object (it is not passed through `to_dict` or `strftime`). -/
structure AiBody where
  id : Nat
  lat : String
  lng : String
  description : String
  summary : String
  posted_at : DT
  deriving DecidableEq, Repr

/-- The `return jsonify({...})` dictionary of `location_summary`. -/
def aiSuccessBody (la ln : String) (row : SummaryRow) (generated : String) :
    AiBody :=
  { id := row.id, lat := la, lng := ln, description := row.location,
    summary := generated, posted_at := row.posted_at }

/-- Outcome of `GET /api/ai/location-summary`: an `abort(status, msg)`, the
`jsonify`-with-502 model-error branch, or the success body. -/
inductive AiResult where
  | abort (status : Nat) (msg : String)
  | modelError (details : String)
  | ok (body : AiBody)
  deriving DecidableEq, Repr

/-- Handler `location_summary` (ai_routes.py).  External effects are passed in as
data: `geoStatus`/`features`/`geoText` describe the Geoapify response, `gen`
is the Cloudflare call as a function of the prompt (`.error` = any exception
in the try block), `respLen` is the f-string rendering of the
`RESPONSE_WORD_LENGTH` environment value, and `newId`/`now` are the
database-assigned id and timestamp of the committed row. -/
def location_summary (lat lng : Option String) (geoStatus : Nat)
    (geoText : String) (features : Option (List GeoProps))
    (gen : String → Except String String) (respLen : String)
    (newId : Nat) (now : DT) (store : List SummaryRow) :
    List SummaryRow × AiResult :=
  match lat, lng with
  | some la, some ln =>
      if geoStatus ≠ 200 then
        (store, .abort 502 (("Geoapify error: ") ++ geoText))
      else
        match features with
        | none => (store, .abort 404 ("No location data found"))
        | some [] => (store, .abort 404 ("No location data found"))
        | some (f :: _) =>
            let description := descriptionOf f
            let prompt := buildPrompt description respLen
            match gen prompt with
            | .error e => (store, .modelError e)
            | .ok generated =>
                match parseFloat la, parseFloat ln with
                | some laf, some lnf =>
                    let row : SummaryRow :=
                      { id := newId, summary := none, location := description,
                        lat := laf, lng := lnf, posted_at := now }
                    match insertSummary row store with
                    | .error _ =>
                        (store, .abort 500 ("Failed to save location summary"))
                    | .ok store2 =>
                        (store2, .ok (aiSuccessBody la ln row generated))
                | _, _ =>
                    -- float(lat) raising inside the try lands in the same
                    -- except branch as a commit failure
                    (store, .abort 500 ("Failed to save location summary"))
  | _, _ => (store, .abort 400 ("lat and lng query parameters required"))

/-- Three-letter weekday name of RFC 1123 dates (0 = Sunday). -/
def dayName (w : Nat) : String :=
  match w with
  | 0 => "Sun"
  | 1 => "Mon"
  | 2 => "Tue"
  | 3 => "Wed"
  | 4 => "Thu"
  | 5 => "Fri"
  | _ => "Sat"

/-- Three-letter month name of RFC 1123 dates. -/
def monthName (m : Nat) : String :=
  match m with
  | 1 => "Jan"
  | 2 => "Feb"
  | 3 => "Mar"
  | 4 => "Apr"
  | 5 => "May"
  | 6 => "Jun"
  | 7 => "Jul"
  | 8 => "Aug"
  | 9 => "Sep"
  | 10 => "Oct"
  | 11 => "Nov"
  | _ => "Dec"

/-- Model of `werkzeug.http.http_date`, the serialization the default Flask JSON
provider applies to a `datetime` passed to `jsonify`:
`Ddd, DD Mmm YYYY HH:MM:SS GMT` (1970-01-01 was a Thursday). -/
def httpDate (t : DT) : String :=
  let w : Nat := ((daysFromCivil (t.year : Int) t.month t.day + 4) % 7).toNat
  dayName w ++ ", " ++ String.mk (pad2L t.day) ++ " " ++ monthName t.month ++
    " " ++ String.mk (pad4L t.year) ++ " " ++ String.mk (pad2L t.hour) ++
    ":" ++ String.mk (pad2L t.minute) ++ ":" ++ String.mk (pad2L t.second) ++
    " GMT"

/-- The JSON text the response carries for the `posted_at` field of the ai body. -/
def aiPostedAtJson (b : AiBody) : String := httpDate b.posted_at

/-- Checks that a string is exactly of the shape `YYYY-MM-DDTHH:MM:SSZ`. -/
def isIsoZShaped (s : String) : Bool :=
  match s.data with
  | a1 :: a2 :: a3 :: a4 :: b1 :: a5 :: a6 :: b2 :: a7 :: a8 :: b3 ::
      a9 :: a10 :: b4 :: a11 :: a12 :: b5 :: a13 :: a14 :: b6 :: [] =>
      a1.isDigit && a2.isDigit && a3.isDigit && a4.isDigit && b1 = '-' &&
      a5.isDigit && a6.isDigit && b2 = '-' && a7.isDigit && a8.isDigit &&
      b3 = 'T' && a9.isDigit && a10.isDigit && b4 = ':' && a11.isDigit &&
      a12.isDigit && b5 = ':' && a13.isDigit && a14.isDigit && b6 = 'Z'
  | _ => false

/-- Concrete stored timestamp used by the concrete instances below. -/
def demoDT1 : DT :=
  { year := 2024, month := 5, day := 10, hour := 12, minute := 0,
    second := 0, usec := 500000, tz := some 0 }

/-- A later concrete stored timestamp. -/
def demoDT2 : DT :=
  { year := 2024, month := 5, day := 10, hour := 13, minute := 30,
    second := 15, usec := 0, tz := some 0 }

/-- Concrete `datetime.now(timezone.utc)` of the demo requests. -/
def demoNow : DT :=
  { year := 2024, month := 5, day := 10, hour := 14, minute := 0,
    second := 0, usec := 0, tz := some 0 }

/-- Concrete timestamp used for the ai-route serialization instances. -/
def demoDT3 : DT :=
  { year := 2030, month := 1, day := 1, hour := 0, minute := 0,
    second := 0, usec := 0, tz := some 0 }

/-- A concrete stored message. -/
def demoMsg1 : MessageRow :=
  { id := 1, message := "hello", lat := 40, lng := -75, posted_at := demoDT1 }

/-- A second concrete stored message, more recent and further north. -/
def demoMsg2 : MessageRow :=
  { id := 2, message := "later", lat := 50, lng := -75, posted_at := demoDT2 }

/-- An expired concrete stored message (older than the demo TTL window). -/
def demoMsgOld : MessageRow :=
  { id := 3, message := "old", lat := 0, lng := 0,
    posted_at := { year := 2020, month := 1, day := 1, hour := 0, minute := 0,
                   second := 0, usec := 0, tz := some 0 } }

/-- A concrete persisted summary row. -/
def demoSummary : SummaryRow :=
  { id := 1, summary := some ("A lovely area."),
    location := "Pennsylvania, United States", lat := 40, lng := -75,
    posted_at := demoDT3 }

/-- Demo query with every parameter absent. -/
def demoArgsNone : MsgArgs :=
  { start := none, endArg := none, lat_min := none, lat_max := none,
    lng_min := none, lng_max := none }

theorem digit_facts : ∀ d : Nat, d < 10 →
    (Nat.digitChar d).isDigit = true ∧ digitVal (Nat.digitChar d) = d ∧
    ¬ Nat.digitChar d = 'Z' := by decide

theorem digit_isDigit : ∀ d : Nat, d < 10 → (Nat.digitChar d).isDigit = true := by
  decide

theorem num2_digits (n : Nat) (h : n ≤ 99) :
    num2 (Nat.digitChar (n / 10)) (Nat.digitChar (n % 10)) = some n := by
  obtain ⟨ha1, ha2, -⟩ := digit_facts (n / 10) (by omega)
  obtain ⟨hb1, hb2, -⟩ := digit_facts (n % 10) (by omega)
  simp [num2, ha1, hb1, ha2, hb2]
  omega

theorem num4_digits (n : Nat) (h : n ≤ 9999) :
    num4 (Nat.digitChar (n / 1000)) (Nat.digitChar (n / 100 % 10))
      (Nat.digitChar (n / 10 % 10)) (Nat.digitChar (n % 10)) = some n := by
  obtain ⟨ha1, ha2, -⟩ := digit_facts (n / 1000) (by omega)
  obtain ⟨hb1, hb2, -⟩ := digit_facts (n / 100 % 10) (by omega)
  obtain ⟨hc1, hc2, -⟩ := digit_facts (n / 10 % 10) (by omega)
  obtain ⟨hd1, hd2, -⟩ := digit_facts (n % 10) (by omega)
  simp [num4, ha1, hb1, hc1, hd1, ha2, hb2, hc2, hd2]
  omega

theorem replaceZL_cons_ne (c : Char) (cs : List Char) (h : ¬ c = 'Z') :
    replaceZL (c :: cs) = c :: replaceZL cs := by
  simp [replaceZL, h]

theorem daysInMonth_le_31 (y m : Nat) : daysInMonth y m ≤ 31 := by
  unfold daysInMonth
  split
  · split <;> omega
  · split <;> omega

/-- Core round-trip fact: the `strftime` output of `to_dict`, put through the
Z-rewriting `fromisoformat` parse of the service itself, recovers the civil fields
with microseconds dropped, as a UTC-aware value. -/
theorem parse_format_roundtrip (t : DT) (h : validDT t) :
    parseIsoDT (replaceZ (formatIsoZ t)) = some (truncSec t) := by
  obtain ⟨y, mo, d, hh, mi, s, us, tz⟩ := t
  simp only [validDT] at h
  obtain ⟨h1, h2, h3, h4, h5, h6, h7, h8, h9, h10⟩ := h
  obtain ⟨-, -, fy1⟩ := digit_facts (y / 1000) (by omega)
  obtain ⟨-, -, fy2⟩ := digit_facts (y / 100 % 10) (by omega)
  obtain ⟨-, -, fy3⟩ := digit_facts (y / 10 % 10) (by omega)
  obtain ⟨-, -, fy4⟩ := digit_facts (y % 10) (by omega)
  obtain ⟨-, -, fm1⟩ := digit_facts (mo / 10) (by omega)
  obtain ⟨-, -, fm2⟩ := digit_facts (mo % 10) (by omega)
  have hd31 : d ≤ 31 := le_trans h6 (daysInMonth_le_31 y mo)
  obtain ⟨-, -, fd1⟩ := digit_facts (d / 10) (by omega)
  obtain ⟨-, -, fd2⟩ := digit_facts (d % 10) (by omega)
  obtain ⟨-, -, fh1⟩ := digit_facts (hh / 10) (by omega)
  obtain ⟨-, -, fh2⟩ := digit_facts (hh % 10) (by omega)
  obtain ⟨-, -, fn1⟩ := digit_facts (mi / 10) (by omega)
  obtain ⟨-, -, fn2⟩ := digit_facts (mi % 10) (by omega)
  obtain ⟨-, -, fs1⟩ := digit_facts (s / 10) (by omega)
  obtain ⟨-, -, fs2⟩ := digit_facts (s % 10) (by omega)
  have hrz : (replaceZ (formatIsoZ ⟨y, mo, d, hh, mi, s, us, tz⟩)).data =
      Nat.digitChar (y / 1000) :: Nat.digitChar (y / 100 % 10) ::
      Nat.digitChar (y / 10 % 10) :: Nat.digitChar (y % 10) :: '-' ::
      Nat.digitChar (mo / 10) :: Nat.digitChar (mo % 10) :: '-' ::
      Nat.digitChar (d / 10) :: Nat.digitChar (d % 10) :: 'T' ::
      Nat.digitChar (hh / 10) :: Nat.digitChar (hh % 10) :: ':' ::
      Nat.digitChar (mi / 10) :: Nat.digitChar (mi % 10) :: ':' ::
      Nat.digitChar (s / 10) :: Nat.digitChar (s % 10) ::
      '+' :: '0' :: '0' :: ':' :: '0' :: '0' :: [] := by
    simp only [formatIsoZ, replaceZ, pad4L, pad2L, List.cons_append,
      List.nil_append]
    simp only [replaceZL_cons_ne, replaceZL, fy1, fy2, fy3, fy4, fm1, fm2,
      fd1, fd2, fh1, fh2, fn1, fn2, fs1, fs2]
    simp
  have hy1 : 1 ≤ y := by omega
  have hrd : readDate ((replaceZ (formatIsoZ ⟨y, mo, d, hh, mi, s, us, tz⟩)).data) =
      some (y, mo, d,
        'T' :: Nat.digitChar (hh / 10) :: Nat.digitChar (hh % 10) :: ':' ::
        Nat.digitChar (mi / 10) :: Nat.digitChar (mi % 10) :: ':' ::
        Nat.digitChar (s / 10) :: Nat.digitChar (s % 10) ::
        '+' :: '0' :: '0' :: ':' :: '0' :: '0' :: []) := by
    rw [hrz]
    simp [readDate, num4_digits y (by omega), num2_digits mo (by omega),
      num2_digits d (by omega)]
  have hrt : readTime (Nat.digitChar (hh / 10) :: Nat.digitChar (hh % 10) :: ':' ::
      Nat.digitChar (mi / 10) :: Nat.digitChar (mi % 10) :: ':' ::
      Nat.digitChar (s / 10) :: Nat.digitChar (s % 10) ::
      '+' :: '0' :: '0' :: ':' :: '0' :: '0' :: []) =
      some (hh, mi, s, '+' :: '0' :: '0' :: ':' :: '0' :: '0' :: []) := by
    simp [readTime, num2_digits hh (by omega), num2_digits mi (by omega),
      num2_digits s (by omega)]
  have hro : readOffset ('+' :: '0' :: '0' :: ':' :: '0' :: '0' :: []) =
      some (some 0) := by decide
  unfold parseIsoDT
  rw [hrd]
  simp only [hrt, hro]
  simp [mkDT, truncSec, hy1, h2, h3, h4, h5, h6, h7, h8, h9]

/-- The `to_dict` timestamp string is exactly of the documented shape. -/
theorem isoZShaped_format (t : DT) (h : validDT t) :
    isIsoZShaped (formatIsoZ t) = true := by
  obtain ⟨y, mo, d, hh, mi, s, us, tz⟩ := t
  simp only [validDT] at h
  obtain ⟨h1, h2, h3, h4, h5, h6, h7, h8, h9, h10⟩ := h
  have hd31 : d ≤ 31 := le_trans h6 (daysInMonth_le_31 y mo)
  simp only [formatIsoZ, pad4L, pad2L, List.cons_append, List.nil_append,
    isIsoZShaped]
  simp [digit_isDigit (y / 1000) (by omega), digit_isDigit (y / 100 % 10) (by omega),
    digit_isDigit (y / 10 % 10) (by omega), digit_isDigit (y % 10) (by omega),
    digit_isDigit (mo / 10) (by omega), digit_isDigit (mo % 10) (by omega),
    digit_isDigit (d / 10) (by omega), digit_isDigit (d % 10) (by omega),
    digit_isDigit (hh / 10) (by omega), digit_isDigit (hh % 10) (by omega),
    digit_isDigit (mi / 10) (by omega), digit_isDigit (mi % 10) (by omega),
    digit_isDigit (s / 10) (by omega), digit_isDigit (s % 10) (by omega)]

theorem stripL_of_ends (a : Char) (mid : List Char) (z : Char)
    (ha : a.isWhitespace = false) (hz : z.isWhitespace = false) :
    stripL (a :: (mid ++ [z])) = a :: (mid ++ [z]) := by
  simp [stripL, lstripL, rstripL, ha, hz, List.dropWhile_cons]

/-- The `.strip()` on the prompt is the identity: the f-string template
begins and ends with non-whitespace literal text. -/
theorem buildPrompt_plain (d n : String) :
    buildPrompt d n =
      ("Give me an description of the area ") ++ d ++ (" within ") ++ n ++
        (" words, without stopping in the middle of a sentence") := by
  have hpre : ("Give me an description of the area ").data =
      'G' :: ("ive me an description of the area ").data := by decide
  have hsuf : (" words, without stopping in the middle of a sentence").data =
      (" words, without stopping in the middle of a sentenc").data ++ ['e'] := by
    decide
  have hdata : ((("Give me an description of the area ") ++ d ++ (" within ") ++ n ++
      (" words, without stopping in the middle of a sentence")) : String).data =
      'G' :: ((("ive me an description of the area ").data ++ d.data ++
        (" within ").data ++ n.data ++
        (" words, without stopping in the middle of a sentenc").data) ++ ['e']) := by
    simp [String.data_append, hpre, hsuf, List.cons_append, List.nil_append,
      List.append_assoc]
  unfold buildPrompt pyStrip
  apply String.ext
  show stripL _ = _
  rw [hdata, stripL_of_ends _ _ _ (by decide) (by decide)]

theorem optTest_true {α : Type} (o : Option α) (f : α → Bool) :
    optTest o f = true ↔ ∀ x, o = some x → f x = true := by
  cases o <;> simp [optTest]

theorem keepFilter_true (sdt edt : Option DT) (lm lM gm gM : Option Rat)
    (m : MessageRow) :
    keepFilter sdt edt lm lM gm gM m = true ↔
      ((∀ t, sdt = some t → t.key ≤ m.posted_at.key) ∧
       (∀ t, edt = some t → m.posted_at.key ≤ t.key) ∧
       (∀ x, lm = some x → x ≤ m.lat) ∧
       (∀ x, lM = some x → m.lat ≤ x) ∧
       (∀ x, gm = some x → x ≤ m.lng) ∧
       (∀ x, gM = some x → m.lng ≤ x)) := by
  simp [keepFilter, Bool.and_eq_true, optTest_true, and_assoc]

theorem applyFilters_sorted (store : List MessageRow) (sdt edt : Option DT)
    (lm lM gm gM : Option Rat) :
    (applyFilters store sdt edt lm lM gm gM).Sorted postedDesc :=
  List.sorted_insertionSort postedDesc _

theorem applyFilters_mem (store : List MessageRow) (sdt edt : Option DT)
    (lm lM gm gM : Option Rat) (m : MessageRow) :
    m ∈ applyFilters store sdt edt lm lM gm gM ↔
      m ∈ store ∧ keepFilter sdt edt lm lM gm gM m = true := by
  simp [applyFilters, List.mem_insertionSort, List.mem_filter]

theorem filter_messages_ok (store : List MessageRow) (args : MsgArgs)
    (rows : List MessageRow) (h : filter_messages store args = .ok rows) :
    ∃ sdt : Option DT,
      rows = applyFilters store sdt (parseEndLenient args.endArg)
          (floatArg args.lat_min) (floatArg args.lat_max)
          (floatArg args.lng_min) (floatArg args.lng_max)
      ∧ (∀ s, truthy args.start = some s →
          parseIsoDT (replaceZ s) = sdt ∧ sdt.isSome = true)
      ∧ (truthy args.start = none → sdt = none) := by
  cases htr : truthy args.start with
  | none =>
      simp only [filter_messages, htr, GetResult.ok.injEq] at h
      refine ⟨none, h.symm, ?_, fun _ => rfl⟩
      intro s2 hs2
      cases hs2
  | some s =>
      cases hp : parseIsoDT (replaceZ s) with
      | none =>
          simp [filter_messages, htr, hp] at h
      | some t =>
          simp only [filter_messages, htr, hp, GetResult.ok.injEq] at h
          refine ⟨some t, h.symm, ?_, ?_⟩
          · intro s2 hs2
            rw [Option.some.injEq] at hs2
            subst hs2
            exact ⟨hp, rfl⟩
          · intro hc
            cases hc

theorem mem_remove_old (now : DT) (ttl : Int) (store : List MessageRow)
    (m : MessageRow) :
    m ∈ remove_old_messages now ttl store ↔
      m ∈ store ∧ ¬ m.posted_at.key < now.key - ttl * 60000000 := by
  simp [remove_old_messages, List.mem_filter]

/-- C4: every `GET /api/messages` list is sorted by `posted_at` descending;
each supplied coordinate bound `lat_min`/`lat_max`/`lng_min`/`lng_max`
constrains every returned row on its axis, and an absent bound leaves the
axis unconstrained (every non-purged stored row meeting the present filters
is returned). -/
theorem get_messages_sorted_and_bounded (now : DT) (ttl : Int) (args : MsgArgs)
    (store rows : List MessageRow)
    (h : (messagesGET now ttl args store).2 = .ok rows) :
    rows.Sorted postedDesc
    ∧ (∀ x, floatArg args.lat_min = some x → ∀ m ∈ rows, x ≤ m.lat)
    ∧ (∀ x, floatArg args.lat_max = some x → ∀ m ∈ rows, m.lat ≤ x)
    ∧ (∀ x, floatArg args.lng_min = some x → ∀ m ∈ rows, x ≤ m.lng)
    ∧ (∀ x, floatArg args.lng_max = some x → ∀ m ∈ rows, m.lng ≤ x)
    ∧ (∀ m ∈ store,
        ¬ m.posted_at.key < now.key - ttl * 60000000 →
        (∀ s t, truthy args.start = some s → parseIsoDT (replaceZ s) = some t →
            t.key ≤ m.posted_at.key) →
        (∀ t, parseEndLenient args.endArg = some t → m.posted_at.key ≤ t.key) →
        (∀ x, floatArg args.lat_min = some x → x ≤ m.lat) →
        (∀ x, floatArg args.lat_max = some x → m.lat ≤ x) →
        (∀ x, floatArg args.lng_min = some x → x ≤ m.lng) →
        (∀ x, floatArg args.lng_max = some x → m.lng ≤ x) →
        m ∈ rows) := by
  simp only [messagesGET] at h
  obtain ⟨sdt, hrows, hsdt, hsdtn⟩ := filter_messages_ok _ _ _ h
  subst hrows
  refine ⟨applyFilters_sorted _ _ _ _ _ _ _, ?_, ?_, ?_, ?_, ?_⟩
  · intro x hx m hm
    exact ((keepFilter_true _ _ _ _ _ _ _).mp ((applyFilters_mem _ _ _ _ _ _ _ _).mp hm).2).2.2.1 x hx
  · intro x hx m hm
    exact ((keepFilter_true _ _ _ _ _ _ _).mp ((applyFilters_mem _ _ _ _ _ _ _ _).mp hm).2).2.2.2.1 x hx
  · intro x hx m hm
    exact ((keepFilter_true _ _ _ _ _ _ _).mp ((applyFilters_mem _ _ _ _ _ _ _ _).mp hm).2).2.2.2.2.1 x hx
  · intro x hx m hm
    exact ((keepFilter_true _ _ _ _ _ _ _).mp ((applyFilters_mem _ _ _ _ _ _ _ _).mp hm).2).2.2.2.2.2 x hx
  · intro m hm hcut hstart hend hb1 hb2 hb3 hb4
    refine (applyFilters_mem _ _ _ _ _ _ _ _).mpr ⟨(mem_remove_old _ _ _ _).mpr ⟨hm, hcut⟩, ?_⟩
    refine (keepFilter_true _ _ _ _ _ _ _).mpr ⟨?_, ?_, hb1, hb2, hb3, hb4⟩
    · intro t ht
      cases htr : truthy args.start with
      | none =>
          rw [hsdtn htr] at ht
          cases ht
      | some s =>
          obtain ⟨hparse, -⟩ := hsdt s htr
          rw [ht] at hparse
          exact hstart s t htr hparse
    · intro t ht
      exact hend t ht

/-- C6: the purge is idempotent — for a fixed current time and TTL, a second
purge with no intervening inserts changes nothing, in particular the message
count is unchanged after the second call. -/
theorem purge_idempotent (now : DT) (ttl : Int) (store : List MessageRow) :
    remove_old_messages now ttl (remove_old_messages now ttl store) =
      remove_old_messages now ttl store
    ∧ (remove_old_messages now ttl (remove_old_messages now ttl store)).length =
      (remove_old_messages now ttl store).length := by
  have h : remove_old_messages now ttl (remove_old_messages now ttl store) =
      remove_old_messages now ttl store := by
    unfold remove_old_messages
    rw [List.filter_filter]
    simp
  exact ⟨h, by rw [h]⟩

/-- C5: a `POST /api/messages` whose body lacks `message` (or whose message
strips to empty), or lacks `lat`, or lacks `lng`, gets the 400 response and
leaves the message store unchanged. -/
theorem create_message_missing_rejected (data : PostData) (newId : Nat)
    (now : DT) (store : List MessageRow)
    (h : pyStrip (data.message.getD ("")) = "" ∨ data.lat = none ∨ data.lng = none) :
    (create_message data newId now store).1 = store
    ∧ (create_message data newId now store).2 =
      .badRequest ("Lat and long inputs are required") := by
  unfold create_message
  rcases h with h | h | h
  · cases hla : data.lat <;> cases hln : data.lng <;> simp [h]
  · simp [h]
  · cases hla : data.lat <;> simp [h]

/-- C5 witness: a blank message with both coordinates present is rejected
and nothing is persisted. -/
theorem create_message_missing_rejected_witness :
    (pyStrip (((some ("  ") : Option String)).getD ("")) = "" ∨
      (some (40 : Rat) : Option Rat) = none ∨ (some (-75 : Rat) : Option Rat) = none)
    ∧ ((create_message { message := some ("  "), lat := some 40, lng := some (-75) }
          7 demoNow [demoMsg1]).1 = [demoMsg1]
      ∧ (create_message { message := some ("  "), lat := some 40, lng := some (-75) }
          7 demoNow [demoMsg1]).2 =
        .badRequest ("Lat and long inputs are required")) :=
  ⟨Or.inl (by decide),
   create_message_missing_rejected
     { message := some ("  "), lat := some 40, lng := some (-75) } 7 demoNow
     [demoMsg1] (Or.inl (by decide))⟩

/-- C7: parsing the `posted_at` string of the `to_dict` of a created message
back as a UTC datetime recovers the stored creation timestamp truncated to
whole seconds. -/
theorem to_dict_posted_at_roundtrip (m : MessageRow) (h : validDT m.posted_at) :
    parseIsoDT (replaceZ ((MessageRow.to_dict m).posted_at)) =
      some (truncSec m.posted_at) := by
  simpa [MessageRow.to_dict] using parse_format_roundtrip m.posted_at h

/-- C7 witness: the round trip at a concrete message whose timestamp has
microseconds. -/
theorem to_dict_posted_at_roundtrip_witness :
    validDT demoMsg1.posted_at
    ∧ parseIsoDT (replaceZ ((MessageRow.to_dict demoMsg1).posted_at)) =
      some (truncSec demoMsg1.posted_at) :=
  ⟨by decide, to_dict_posted_at_roundtrip demoMsg1 (by decide)⟩

/-- C9: for a non-empty feature list, the place description equals the
rule of the spec — present values only, state before country, duplicate dropped,
joined with a comma-space — stated for the non-degenerate case where a
present property is a non-empty string. -/
theorem description_matches_spec (props : GeoProps)
    (hs : props.state ≠ some ("")) (hc : props.country ≠ some ("")) :
    descriptionOf props = specDescription props.state props.country := by
  obtain ⟨st, co⟩ := props
  cases st with
  | none =>
      cases co with
      | none => rfl
      | some c =>
          have hc2 : c ≠ "" := by simpa using hc
          simp [descriptionOf, placeParts, joinComma, specDescription, hc2]
  | some s =>
      have hs2 : s ≠ "" := by simpa using hs
      cases co with
      | none => simp [descriptionOf, placeParts, joinComma, specDescription, hs2]
      | some c =>
          have hc2 : c ≠ "" := by simpa using hc
          by_cases hsc : s = c
          · subst hsc
            simp [descriptionOf, placeParts, joinComma, specDescription, hs2]
          · simp [descriptionOf, placeParts, joinComma, specDescription, hs2, hc2,
              hsc, Ne.symm hsc]

/-- C9 witness: the description for a concrete state/country pair. -/
theorem description_matches_spec_witness :
    ((some ("Pennsylvania") : Option String) ≠ some ("")
      ∧ (some ("United States") : Option String) ≠ some (""))
    ∧ descriptionOf { state := some ("Pennsylvania"), country := some ("United States") } =
      specDescription (some ("Pennsylvania")) (some ("United States")) :=
  ⟨⟨by decide, by decide⟩,
   description_matches_spec
     { state := some ("Pennsylvania"), country := some ("United States") }
     (by decide) (by decide)⟩

/-- C10: a coordinate bound whose value does not parse as a float is
silently treated as absent (the response is identical to the request without
that parameter), and — whenever the `start` parameter itself is absent or
well-formed — the request still succeeds with the 200 list rather than a
client error. -/
theorem bad_float_param_ignored (store : List MessageRow) (args : MsgArgs)
    (s : String) (hp : parseFloat s = none) :
    filter_messages store { args with lat_min := some s } =
      filter_messages store { args with lat_min := none }
    ∧ filter_messages store { args with lat_max := some s } =
      filter_messages store { args with lat_max := none }
    ∧ filter_messages store { args with lng_min := some s } =
      filter_messages store { args with lng_min := none }
    ∧ filter_messages store { args with lng_max := some s } =
      filter_messages store { args with lng_max := none }
    ∧ ((∀ v, truthy args.start = some v → (parseIsoDT (replaceZ v)).isSome = true) →
        ∃ rows, filter_messages store { args with lat_min := some s } = .ok rows) := by
  refine ⟨?_, ?_, ?_, ?_, ?_⟩
  · cases htr : truthy args.start with
    | none => simp [filter_messages, htr, floatArg, hp]
    | some v =>
        cases hp2 : parseIsoDT (replaceZ v) <;>
          simp [filter_messages, htr, hp2, floatArg, hp]
  · cases htr : truthy args.start with
    | none => simp [filter_messages, htr, floatArg, hp]
    | some v =>
        cases hp2 : parseIsoDT (replaceZ v) <;>
          simp [filter_messages, htr, hp2, floatArg, hp]
  · cases htr : truthy args.start with
    | none => simp [filter_messages, htr, floatArg, hp]
    | some v =>
        cases hp2 : parseIsoDT (replaceZ v) <;>
          simp [filter_messages, htr, hp2, floatArg, hp]
  · cases htr : truthy args.start with
    | none => simp [filter_messages, htr, floatArg, hp]
    | some v =>
        cases hp2 : parseIsoDT (replaceZ v) <;>
          simp [filter_messages, htr, hp2, floatArg, hp]
  · intro hstart
    cases htr : truthy args.start with
    | none =>
        refine ⟨applyFilters store none (parseEndLenient args.endArg)
          (floatArg (some s)) (floatArg args.lat_max) (floatArg args.lng_min)
          (floatArg args.lng_max), ?_⟩
        simp [filter_messages, htr]
    | some v =>
        have hv := hstart v htr
        cases hp2 : parseIsoDT (replaceZ v) with
        | none => rw [hp2] at hv; cases hv
        | some t =>
            refine ⟨applyFilters store (some t) (parseEndLenient args.endArg)
              (floatArg (some s)) (floatArg args.lat_max) (floatArg args.lng_min)
              (floatArg args.lng_max), ?_⟩
            simp [filter_messages, htr, hp2]

/-- C10 witness: `lat_min=abc` behaves as no `lat_min` and the request
succeeds. -/
theorem bad_float_param_ignored_witness :
    parseFloat ("abc") = none
    ∧ (filter_messages [demoMsg1] { demoArgsNone with lat_min := some ("abc") } =
        filter_messages [demoMsg1] { demoArgsNone with lat_min := none }
      ∧ filter_messages [demoMsg1] { demoArgsNone with lat_max := some ("abc") } =
        filter_messages [demoMsg1] { demoArgsNone with lat_max := none }
      ∧ filter_messages [demoMsg1] { demoArgsNone with lng_min := some ("abc") } =
        filter_messages [demoMsg1] { demoArgsNone with lng_min := none }
      ∧ filter_messages [demoMsg1] { demoArgsNone with lng_max := some ("abc") } =
        filter_messages [demoMsg1] { demoArgsNone with lng_max := none }
      ∧ ((∀ v, truthy demoArgsNone.start = some v →
            (parseIsoDT (replaceZ v)).isSome = true) →
          ∃ rows, filter_messages [demoMsg1]
            { demoArgsNone with lat_min := some ("abc") } = .ok rows)) :=
  ⟨by decide,
   bad_float_param_ignored [demoMsg1] demoArgsNone ("abc") (by decide)⟩

/-- C4 witness: a concrete request with `lat_min=40` over a three-row store
(one expired row) returns the two matching rows most-recent-first. -/
theorem get_messages_sorted_and_bounded_witness :
    (messagesGET demoNow 3600 { demoArgsNone with lat_min := some ("40") }
        [demoMsg1, demoMsgOld, demoMsg2]).2 = .ok [demoMsg2, demoMsg1]
    ∧ ([demoMsg2, demoMsg1].Sorted postedDesc
      ∧ (∀ x, floatArg ({ demoArgsNone with lat_min := some ("40") } : MsgArgs).lat_min = some x →
          ∀ m ∈ [demoMsg2, demoMsg1], x ≤ m.lat)
      ∧ (∀ x, floatArg ({ demoArgsNone with lat_min := some ("40") } : MsgArgs).lat_max = some x →
          ∀ m ∈ [demoMsg2, demoMsg1], m.lat ≤ x)
      ∧ (∀ x, floatArg ({ demoArgsNone with lat_min := some ("40") } : MsgArgs).lng_min = some x →
          ∀ m ∈ [demoMsg2, demoMsg1], x ≤ m.lng)
      ∧ (∀ x, floatArg ({ demoArgsNone with lat_min := some ("40") } : MsgArgs).lng_max = some x →
          ∀ m ∈ [demoMsg2, demoMsg1], m.lng ≤ x)
      ∧ (∀ m ∈ [demoMsg1, demoMsgOld, demoMsg2],
          ¬ m.posted_at.key < demoNow.key - 3600 * 60000000 →
          (∀ s t, truthy ({ demoArgsNone with lat_min := some ("40") } : MsgArgs).start = some s →
              parseIsoDT (replaceZ s) = some t → t.key ≤ m.posted_at.key) →
          (∀ t, parseEndLenient ({ demoArgsNone with lat_min := some ("40") } : MsgArgs).endArg = some t →
              m.posted_at.key ≤ t.key) →
          (∀ x, floatArg ({ demoArgsNone with lat_min := some ("40") } : MsgArgs).lat_min = some x → x ≤ m.lat) →
          (∀ x, floatArg ({ demoArgsNone with lat_min := some ("40") } : MsgArgs).lat_max = some x → m.lat ≤ x) →
          (∀ x, floatArg ({ demoArgsNone with lat_min := some ("40") } : MsgArgs).lng_min = some x → x ≤ m.lng) →
          (∀ x, floatArg ({ demoArgsNone with lat_min := some ("40") } : MsgArgs).lng_max = some x → m.lng ≤ x) →
          m ∈ [demoMsg2, demoMsg1])) :=
  ⟨by decide,
   get_messages_sorted_and_bounded demoNow 3600
     { demoArgsNone with lat_min := some ("40") }
     [demoMsg1, demoMsgOld, demoMsg2] [demoMsg2, demoMsg1] (by decide)⟩

/-- C1 (code bug): with reverse-geocoding succeeding on a non-empty feature
list and generation succeeding, the handler still ends in the 500
persistence-failure branch and persists nothing — the route commits
`summary=None` into the `nullable=False` column `Summary.summary`, so the
commit raises on every request that reaches it. -/
theorem location_summary_persist_always_fails :
    location_summary (some ("40.1")) (some ("-75.3")) 200 ("")
      (some [{ state := some ("Pennsylvania"), country := some ("United States") }])
      (fun _ => .ok ("A lovely area.")) ("60") 1 demoNow [] =
      ([], .abort 500 ("Failed to save location summary")) := by decide

/-- C2 (code bug): a malformed `end` parameter does not produce the 400 —
the source builds the `Invalid end date format` response but never returns
it, so the request answers 200 with the list; the symmetric malformed
`start` does return the 400. -/
theorem end_date_400_is_lost :
    parseIsoDT (replaceZ ("not-a-date")) = none
    ∧ messagesGET demoNow 3600
        { start := none, endArg := some ("not-a-date"), lat_min := none,
          lat_max := none, lng_min := none, lng_max := none }
        [demoMsg1, demoMsgOld] = ([demoMsg1], .ok [demoMsg1])
    ∧ messagesGET demoNow 3600
        { start := some ("not-a-date"), endArg := none, lat_min := none,
          lat_max := none, lng_min := none, lng_max := none }
        [demoMsg1, demoMsgOld] =
      ([demoMsg1], .badRequest ("Invalid start date format")) := by decide

/-- C3 counterexample: in the `location-summary` success body the
`posted_at` field is the raw `datetime`, which the JSON layer renders as an
HTTP-date, not as `YYYY-MM-DDTHH:MM:SSZ` and not as the `to_dict` string of
the stored timestamp. -/
theorem ai_posted_at_not_isoZ :
    aiPostedAtJson (aiSuccessBody ("40.1") ("-75.3") demoSummary ("A lovely area.")) =
      "Tue, 01 Jan 2030 00:00:00 GMT"
    ∧ isIsoZShaped
        (aiPostedAtJson (aiSuccessBody ("40.1") ("-75.3") demoSummary ("A lovely area."))) = false
    ∧ aiPostedAtJson (aiSuccessBody ("40.1") ("-75.3") demoSummary ("A lovely area.")) ≠
      formatIsoZ demoSummary.posted_at := by decide

/-- C3 amended: the `to_dict`-serialized responses (message lists, created
messages, summary lists) carry `posted_at` as the stored UTC timestamp in
exactly the `YYYY-MM-DDTHH:MM:SSZ` shape (and it parses back to that
timestamp to the second); the `location-summary` body instead hands the raw
`datetime` to the JSON layer, which emits an HTTP-date. -/
theorem posted_at_serialization (m : MessageRow) (srow : SummaryRow)
    (hm : validDT m.posted_at) (hs : validDT srow.posted_at) :
    (MessageRow.to_dict m).posted_at = formatIsoZ m.posted_at
    ∧ isIsoZShaped ((MessageRow.to_dict m).posted_at) = true
    ∧ parseIsoDT (replaceZ ((MessageRow.to_dict m).posted_at)) =
      some (truncSec m.posted_at)
    ∧ (SummaryRow.to_dict srow).posted_at = formatIsoZ srow.posted_at
    ∧ isIsoZShaped ((SummaryRow.to_dict srow).posted_at) = true
    ∧ (∀ la ln g, aiPostedAtJson (aiSuccessBody la ln srow g) =
        httpDate srow.posted_at) := by
  refine ⟨rfl, ?_, ?_, rfl, ?_, fun la ln g => rfl⟩
  · simpa [MessageRow.to_dict] using isoZShaped_format m.posted_at hm
  · simpa [MessageRow.to_dict] using parse_format_roundtrip m.posted_at hm
  · simpa [SummaryRow.to_dict] using isoZShaped_format srow.posted_at hs

/-- C3 amended witness: the serialization facts at a concrete message and a
concrete summary row. -/
theorem posted_at_serialization_witness :
    (validDT demoMsg1.posted_at ∧ validDT demoSummary.posted_at)
    ∧ ((MessageRow.to_dict demoMsg1).posted_at = formatIsoZ demoMsg1.posted_at
      ∧ isIsoZShaped ((MessageRow.to_dict demoMsg1).posted_at) = true
      ∧ parseIsoDT (replaceZ ((MessageRow.to_dict demoMsg1).posted_at)) =
        some (truncSec demoMsg1.posted_at)
      ∧ (SummaryRow.to_dict demoSummary).posted_at = formatIsoZ demoSummary.posted_at
      ∧ isIsoZShaped ((SummaryRow.to_dict demoSummary).posted_at) = true
      ∧ (∀ la ln g, aiPostedAtJson (aiSuccessBody la ln demoSummary g) =
          httpDate demoSummary.posted_at)) :=
  ⟨⟨by decide, by decide⟩,
   posted_at_serialization demoMsg1 demoSummary (by decide) (by decide)⟩

/-- C8 counterexample: the actual prompt differs from the claimed
prompt text of the spec at a concrete description and word count (the source reads
`an description` where the claim reads `a description`). -/
theorem prompt_differs_from_claim :
    buildPrompt ("California, United States") ("60") ≠
      specPromptClaim ("California, United States") ("60") := by decide

/-- C8 amended: for every description `D` and configured word count `N`,
the prompt is exactly `Give me an description of the area D within N words,
without stopping in the middle of a sentence` — the trailing `.strip()` is
the identity on it. -/
theorem prompt_text_amended (d n : String) :
    buildPrompt d n =
      ("Give me an description of the area ") ++ d ++ (" within ") ++ n ++
        (" words, without stopping in the middle of a sentence") :=
  buildPrompt_plain d n
